import Mathlib

/-!
Verification of the mragent agent-orchestration core: a shallow embedding of
the context builder (getProjectMessageHistory, buildProjectContext,
getLatestProjectFiles, extractProjectSummary, extractDevelopmentSteps), the
sandbox lifecycle manager (isActiveSandbox, getOrCreateProjectSandbox,
syncFilesToSandbox, cleanupExpiredSandboxes) and the agent control loop pieces
(isSandboxError, the terminal and createOrUpdateFiles tool handlers, the
outcome classifier isError), with theorems checking the specification claims.

JavaScript records (Record<string, string>) are embedded as association lists
in insertion order; property assignment obj[k] = v is recordSet, which
overwrites in place or appends, exactly as JS object semantics preserve key
insertion order.  JS falsiness of strings ("" is falsy) and of undefined is
modelled explicitly where the source relies on it.
-/

namespace MRAgent

/-- Boolean prefix test on character lists. -/
def listIsPrefixOf : List Char → List Char → Bool
  | [], _ => true
  | _ :: _, [] => false
  | a :: s, b :: t => a == b && listIsPrefixOf s t

/-- Boolean infix test on character lists. -/
def listContainsSub (sub : List Char) : List Char → Bool
  | [] => listIsPrefixOf sub []
  | c :: t => listIsPrefixOf sub (c :: t) || listContainsSub sub t

/-- Substring test: JS String.prototype.includes. -/
def strContains (hay sub : String) : Bool := listContainsSub sub.data hay.data

/-- JS String.prototype.toLowerCase (ASCII case mapping). -/
def lowerString (s : String) : String := String.mk (s.data.map Char.toLower)

/-- A JS Record<string, string> in property insertion order. -/
abbrev FileMap := List (String × String)

/-- JS property assignment obj[k] = v: overwrite in place, else append. -/
def recordSet (m : FileMap) (k v : String) : FileMap :=
  if m.any (fun p => p.1 == k) then
    m.map (fun p => if p.1 == k then (k, v) else p)
  else m ++ [(k, v)]

/-- Merge a list of (path, content) pairs into a record, in order. -/
def recordSetAll (m : FileMap) (files : List (String × String)) : FileMap :=
  files.foldl (fun acc p => recordSet acc p.1 p.2) m

/-- JS truthiness of an optional string: undefined/null and "" are falsy. -/
def jsTruthyStr : Option String → Bool
  | none => false
  | some s => s ≠ ""

inductive Role where
  | USER
  | ASSISTANT
deriving DecidableEq, Repr

inductive MsgType where
  | RESULT
  | ERROR
deriving DecidableEq, Repr

def roleLabel : Role → String
  | Role.USER => "USER"
  | Role.ASSISTANT => "ASSISTANT"

/-- A Fragment row: the build artifact attached to an ASSISTANT/RESULT turn. -/
structure Fragment where
  id : String
  sandboxUrl : String
  title : String
  files : FileMap
  createdAt : Int
deriving DecidableEq, Repr

/-- A message row as stored, with its project foreign key. -/
structure StoredMessage where
  id : String
  projectId : String
  content : String
  role : Role
  type : MsgType
  createdAt : Int
  fragment : Option Fragment
deriving DecidableEq, Repr

/-- The shape returned by getProjectMessageHistory (context-builder.ts). -/
structure MessageWithFragment where
  id : String
  content : String
  role : Role
  type : MsgType
  createdAt : Int
  fragment : Option Fragment
deriving DecidableEq, Repr

def StoredMessage.toMessageWithFragment (m : StoredMessage) : MessageWithFragment :=
  { id := m.id, content := m.content, role := m.role, type := m.type,
    createdAt := m.createdAt, fragment := m.fragment }

/-- getProjectMessageHistory (context-builder.ts): prisma.message.findMany with
where projectId, include fragment, orderBy createdAt asc, take limit.
The take applies after the ascending sort, so the FIRST limit rows in
chronological order are returned. -/
def getProjectMessageHistory (store : List StoredMessage) (projectId : String)
    (limit : Nat := 20) : List MessageWithFragment :=
  ((((store.filter (fun m => m.projectId == projectId)).insertionSort
      (fun a b => a.createdAt ≤ b.createdAt)).take limit).map
    StoredMessage.toMessageWithFragment)

/-- The ProjectContext record (context-builder.ts). -/
structure ProjectContext where
  conversationHistory : String
  currentFiles : FileMap
  projectSummary : String
  developmentHistory : String
  hasContext : Bool
deriving DecidableEq, Repr

/-- Predicate used by getLatestProjectFiles: msg.fragment && msg.role ===
"ASSISTANT" && msg.type === "RESULT". -/
def isResultWithFragment (m : MessageWithFragment) : Bool :=
  m.fragment.isSome && m.role == Role.ASSISTANT && m.type == MsgType.RESULT

/-- An ASSISTANT turn of type RESULT, artifact or not. -/
def isAssistantResult (m : MessageWithFragment) : Bool :=
  m.role == Role.ASSISTANT && m.type == MsgType.RESULT

/-- getLatestProjectFiles (context-builder.ts): filter to ASSISTANT/RESULT
turns carrying a fragment, take the last, return its files (or empty). -/
def getLatestProjectFiles (messages : List MessageWithFragment) : FileMap :=
  match (messages.filter isResultWithFragment).getLast? with
  | none => []
  | some latestMessage => (latestMessage.fragment.map Fragment.files).getD []

/-- inferProjectType (context-builder.ts): keyword classification of the first
request, first matching category wins, default Web Application. -/
def inferProjectType (firstRequest : String) : String :=
  let request := lowerString firstRequest
  if strContains request "netflix" || strContains request "movie" ||
      strContains request "streaming" then "Streaming/Media Application"
  else if strContains request "dashboard" || strContains request "admin" then
    "Admin Dashboard"
  else if strContains request "kanban" || strContains request "todo" ||
      strContains request "task" then "Task Management Application"
  else if strContains request "blog" || strContains request "cms" then
    "Content Management System"
  else if strContains request "ecommerce" || strContains request "shop" ||
      strContains request "store" then "E-commerce Application"
  else if strContains request "chat" || strContains request "messaging" then
    "Communication Application"
  else if strContains request "portfolio" || strContains request "landing" then
    "Portfolio/Landing Page"
  else "Web Application"

/-- extractFeatures (context-builder.ts): scan USER turns for actionable
keywords; default list when nothing matched. -/
def extractFeatures (messages : List MessageWithFragment) : List String :=
  let features := messages.foldl (fun acc msg =>
    if msg.role == Role.USER then
      let content := lowerString msg.content
      if strContains content "add" || strContains content "create" then
        acc
          ++ (if strContains content "page" then ["New Page"] else [])
          ++ (if strContains content "component" then ["New Component"] else [])
          ++ (if strContains content "feature" then ["New Feature"] else [])
          ++ (if strContains content "login" || strContains content "auth" then
                ["Authentication"] else [])
          ++ (if strContains content "database" || strContains content "api" then
                ["Backend/API"] else [])
          ++ (if strContains content "style" || strContains content "theme" then
                ["Styling/Theme"] else [])
      else acc
    else acc) []
  if features.length > 0 then features else ["Initial Implementation"]

/-- extractProjectSummary (context-builder.ts). -/
def extractProjectSummary (messages : List MessageWithFragment) : String :=
  let userMessages := messages.filter (fun m => m.role == Role.USER)
  match userMessages with
  | [] => "No project description available."
  | firstUser :: _ =>
    "Project Type: " ++ inferProjectType firstUser.content
      ++ "\nInitial Request: " ++ firstUser.content
      ++ "\nFeatures Added: " ++ String.intercalate ", " (extractFeatures messages)

/-- extractDevelopmentSteps (context-builder.ts): one line per USER turn and
per ASSISTANT/RESULT turn with a fragment. -/
def extractDevelopmentSteps (messages : List MessageWithFragment) : String :=
  let steps := messages.enum.filterMap (fun iw =>
    let i := iw.1
    let msg := iw.2
    if msg.role == Role.USER then
      some ("Step " ++ toString (i / 2 + 1) ++ ": User requested - "
        ++ msg.content.take 100
        ++ (if msg.content.length > 100 then "..." else ""))
    else if msg.role == Role.ASSISTANT && msg.type == MsgType.RESULT
        && msg.fragment.isSome then
      some ("  - AI generated "
        ++ toString ((msg.fragment.map Fragment.files).getD []).length
        ++ " files with working code")
    else none)
  String.intercalate "\n" steps

/-- buildProjectContext (context-builder.ts): empty context for zero or one
turns, otherwise the derived context with hasContext = true. -/
def buildProjectContext (messages : List MessageWithFragment) : ProjectContext :=
  if messages.length ≤ 1 then
    { conversationHistory := ""
      currentFiles := []
      projectSummary := ""
      developmentHistory := ""
      hasContext := false }
  else
    { conversationHistory :=
        String.intercalate "\n\n"
          (messages.map (fun msg => roleLabel msg.role ++ ": " ++ msg.content))
      currentFiles := getLatestProjectFiles messages
      projectSummary := extractProjectSummary messages
      developmentHistory := extractDevelopmentSteps messages
      hasContext := true }

/-- The sandbox tracking fields selected from the project row
(sandbox-manager.ts). -/
structure ProjectSandboxFields where
  activeSandboxId : Option String
  sandboxExpiresAt : Option Int
deriving DecidableEq, Repr

/-- The return shape of getOrCreateProjectSandbox. -/
structure SandboxInfo where
  sandboxId : String
  isReused : Bool
deriving DecidableEq, Repr

/-- isActiveSandbox (sandbox-manager.ts): false when either tracking field is
JS-falsy (null identifier, "" identifier, null expiry), otherwise the strict
comparison now < expiry.  A pure function of the stored identifier, the
stored expiry and the current time only. -/
def isActiveSandbox (activeSandboxId : Option String)
    (sandboxExpiresAt : Option Int) (now : Int) : Bool :=
  if !jsTruthyStr activeSandboxId || sandboxExpiresAt.isNone then false
  else decide (now < sandboxExpiresAt.getD 0)

/-- syncFilesToSandbox (sandbox-manager.ts): write every (path, content) pair
of the snapshot into the sandbox file system in insertion order; the catch
block logs and rethrows, so a write failure propagates.  failAt gives the
index of the write that throws (if in range); writes before it landed. -/
def syncFilesToSandbox (fs : FileMap) (files : FileMap) (failAt : Option Nat)
    (errMsg : String) : Except String FileMap :=
  match failAt with
  | some i =>
    if i < files.length then .error errMsg
    else .ok (recordSetAll fs files)
  | none => .ok (recordSetAll fs files)

/-- Outcomes of the remote sandbox API calls made while acquiring a sandbox:
whether Sandbox.connect succeeds, the id Sandbox.create returns, and whether
some file write during resync throws. -/
structure SandboxEnv where
  connectOk : Bool
  newSandboxId : String
  syncFailAt : Option Nat
  syncErrMsg : String
deriving DecidableEq, Repr

/-- The creation branch of getOrCreateProjectSandbox: create a sandbox from
the fixed template, resync the prior snapshot when supplied and non-empty
(a resync throw propagates out), persist the new id with a fresh 5-minute
expiry, and return it as not reused. -/
def createSandboxBranch (previousFiles : Option FileMap) (env : SandboxEnv)
    (now : Int) : Except String (SandboxInfo × Option ProjectSandboxFields) :=
  let files := previousFiles.getD []
  let syncRes : Except String FileMap :=
    if previousFiles.isSome && files.length > 0 then
      syncFilesToSandbox [] files env.syncFailAt env.syncErrMsg
    else .ok []
  match syncRes with
  | .error e => .error e
  | .ok _ =>
    .ok ({ sandboxId := env.newSandboxId, isReused := false },
      some { activeSandboxId := some env.newSandboxId,
             sandboxExpiresAt := some (now + 5 * 60 * 1000) })

/-- getOrCreateProjectSandbox (sandbox-manager.ts): if the stored tracking
fields pass isActiveSandbox, try Sandbox.connect; on success return the
stored id as reused; a connect throw is caught (only logged) and control
falls through to the creation branch.  The second component is the project
tracking state after the call. -/
def getOrCreateProjectSandbox (project : Option ProjectSandboxFields)
    (previousFiles : Option FileMap) (env : SandboxEnv) (now : Int) :
    Except String (SandboxInfo × Option ProjectSandboxFields) :=
  match project with
  | some p =>
    if isActiveSandbox p.activeSandboxId p.sandboxExpiresAt now then
      if env.connectOk then
        .ok ({ sandboxId := p.activeSandboxId.getD "", isReused := true },
          some p)
      else createSandboxBranch previousFiles env now
    else createSandboxBranch previousFiles env now
  | none => createSandboxBranch previousFiles env now

/-- A project row as seen by the cleanup pass. -/
structure ProjectRecord where
  id : String
  activeSandboxId : Option String
  sandboxExpiresAt : Option Int
deriving DecidableEq, Repr

/-- The prisma where-clause of cleanupExpiredSandboxes: sandboxExpiresAt is
non-null and less than now, and activeSandboxId is non-null. -/
def expiredSandboxFilter (now : Int) (p : ProjectRecord) : Bool :=
  (match p.sandboxExpiresAt with
   | some e => decide (e < now)
   | none => false) && p.activeSandboxId.isSome

/-- The per-project update performed on each selected row: clear both
tracking fields. -/
def cleanupStep (now : Int) (p : ProjectRecord) : ProjectRecord :=
  if expiredSandboxFilter now p then
    { p with activeSandboxId := none, sandboxExpiresAt := none }
  else p

/-- cleanupExpiredSandboxes (sandbox-manager.ts): select the rows matching
expiredSandboxFilter and null both tracking fields on each; other rows are
untouched. -/
def cleanupExpiredSandboxes (now : Int) (projects : List ProjectRecord) :
    List ProjectRecord :=
  projects.map (cleanupStep now)

/-- The fixed substrings isSandboxError (functions.ts) looks for in the
lowercased error text. -/
def sandboxErrorTokens : List String :=
  ["unexpected eof", "connection refused", "connection reset",
   "sandbox not found", "timeout", "econnreset", "enotfound",
   "network error", "502 bad gateway", "503 service unavailable",
   "504 gateway timeout"]

/-- isSandboxError (functions.ts): false for non-object errors, otherwise a
substring scan of the lowercased textual representation against the fixed
token list. -/
def isSandboxError (errIsObject : Bool) (errText : String) : Bool :=
  if !errIsObject then false
  else
    let errorMessage := lowerString errText
    sandboxErrorTokens.any (fun t => strContains errorMessage t)

/-- The fixed retry instruction the tool handlers return to the model on a
classified sandbox-connectivity failure. -/
def sandboxRetryMessage : String :=
  "Sandbox connection lost. The environment may have timed out. Please retry your request."

/-- Outcome of the remote command execution inside the terminal tool:
either a result whose stdout is returned, or a thrown error. -/
inductive RunOutcome where
  | success (stdout : String)
  | thrown (errIsObject : Bool) (errText : String)
deriving DecidableEq, Repr

/-- The terminal tool handler (functions.ts): return result.stdout on
success; on a throw, return the fixed retry message if the error classifies
as a sandbox error, else the raw error with the captured buffers.  Always a
string result, never a rethrow. -/
def terminalHandler (outcome : RunOutcome) (stdoutBuf stderrBuf : String) :
    String :=
  match outcome with
  | RunOutcome.success out => out
  | RunOutcome.thrown isObj e =>
    if isSandboxError isObj e then sandboxRetryMessage
    else
      "Command failed: " ++ e ++ " \nstdout: " ++ stdoutBuf
        ++ " \nstderr: " ++ stderrBuf

/-- The result of the createOrUpdateFiles inner step: the updated record on
success, or an error string. -/
inductive FilesStepRes where
  | object (files : FileMap)
  | str (s : String)
deriving DecidableEq, Repr

/-- The createOrUpdateFiles tool handler (functions.ts).  The working map
updatedFiles is network.state.data.files || \x7b\x7d: when the accumulator is
already seeded it is the SAME object, so every per-file assignment mutates
the accumulator in place as the loop advances.  failAt is the index of the
write that throws (writes before it succeeded and were assigned).  On a
throw the step returns a string (classified retry message or "Error: " + e)
and the final assignment is skipped; on success the step returns the object
and the handler assigns it to the accumulator.  Returns the accumulator
after the call paired with the step result. -/
def createOrUpdateFiles (acc : Option FileMap) (files : List (String × String))
    (failAt : Option Nat) (errIsObject : Bool) (errText : String) :
    Option FileMap × FilesStepRes :=
  let written := match failAt with
    | none => files
    | some i => files.take i
  let merged := recordSetAll (acc.getD []) written
  match failAt with
  | none => (some merged, FilesStepRes.object merged)
  | some i =>
    if i < files.length then
      let res := FilesStepRes.str
        (if isSandboxError errIsObject errText then sandboxRetryMessage
         else "Error: " ++ errText)
      (if acc.isSome then some merged else none, res)
    else (some merged, FilesStepRes.object merged)

/-- The onResponse lifecycle hook (functions.ts): store the last assistant
text as the summary only when it contains the completion sentinel. -/
def storeSummaryOnResponse (summary : Option String)
    (lastAssistantText : Option String) : Option String :=
  match lastAssistantText with
  | some t => if strContains t "<task_summary>" then some t else summary
  | none => summary

/-- The router seeding step (functions.ts): seed the accumulator from the
context snapshot when hasContext and the accumulator is still undefined
(an already-seeded object, even empty, is truthy and is kept). -/
def routerSeed (hasContext : Bool) (currentFiles : FileMap)
    (files : Option FileMap) : Option FileMap :=
  if hasContext && files.isNone then some currentFiles else files

/-- The outcome classifier (functions.ts): const isError =
!result.state.data.summary || Object.keys(result.state.data.files ||
\x7b\x7d).length === 0. -/
def isError (summary : Option String) (files : Option FileMap) : Bool :=
  !jsTruthyStr summary || (files.getD []).isEmpty

/-- A project message table with 21 turns (createdAt 0 .. 20) on one project,
exhibiting the history window selection on a project longer than the limit. -/
def windowStore21 : List StoredMessage :=
  (List.range 21).map (fun i =>
    { id := "", projectId := "p", content := "m", role := Role.USER,
      type := MsgType.RESULT, createdAt := (i : Int), fragment := none })

/-- C1: the claim says the history fetch returns the MOST RECENT turns of the
project (a recency-bounded window of 20).  The source orders ascending and
then takes 20, which keeps the OLDEST 20 rows: on a project with 21 turns
the fetch has 20 turns, all with createdAt at most 19, while the project
holds a newer turn with createdAt 20 — the most recent turn is dropped, so
the window is not recency-bounded.  The ascending order and the bound of 20
themselves do hold. -/
theorem getProjectMessageHistory_keeps_oldest_drops_newest :
    (getProjectMessageHistory windowStore21 "p" 20).length = 20 ∧
      (∀ m ∈ getProjectMessageHistory windowStore21 "p" 20,
        m.createdAt ≤ 19) ∧
      (∃ m ∈ windowStore21, m.projectId = "p" ∧ 20 ≤ m.createdAt) := by
  decide

/-- C4: the outcome classifier marks the run a failure exactly when no
summary was stored or the final accumulator is empty, the two conditions
checked independently; the hypothesis records that a stored summary is
never the empty string (it always contains the completion sentinel). -/
theorem isError_iff_no_summary_or_no_files (summary : Option String)
    (files : Option FileMap) (h : summary ≠ some "") :
    isError summary files = true ↔
      (summary = none ∨ files.getD [] = []) := by
  cases summary with
  | none => simp [isError, jsTruthyStr]
  | some s =>
    have hs : s ≠ "" := fun hs => h (by rw [hs])
    simp [isError, jsTruthyStr, hs]

/-- Witness for C4: a run with a stored summary but an empty accumulator is
classified as a failure. -/
theorem isError_iff_no_summary_or_no_files_witness :
    isError (some "<task_summary> done") (some []) = true :=
  (isError_iff_no_summary_or_no_files (some "<task_summary> done") (some [])
    (by decide)).mpr (Or.inr rfl)

/-- C5: the liveness check is a pure function of the stored identifier, the
stored expiry and the current time (its only arguments; no sandbox state is
consulted); it returns true exactly when a (non-empty, hence JS-truthy)
identifier is stored and the current time is strictly before a stored
expiry — so it is false whenever the identifier is absent or now is at or
past the expiry, whatever the remote sandbox actually does. -/
theorem isActiveSandbox_pure_iff (activeSandboxId : Option String)
    (sandboxExpiresAt : Option Int) (now : Int) :
    isActiveSandbox activeSandboxId sandboxExpiresAt now = true ↔
      ((∃ s, activeSandboxId = some s ∧ s ≠ "") ∧
        (∃ e, sandboxExpiresAt = some e ∧ now < e)) := by
  cases activeSandboxId with
  | none => simp [isActiveSandbox, jsTruthyStr]
  | some s =>
    cases sandboxExpiresAt with
    | none => simp [isActiveSandbox, jsTruthyStr]
    | some e =>
      by_cases hs : s = "" <;>
        simp [isActiveSandbox, jsTruthyStr, hs]

/-- C6: with zero or one fetched turns, buildProjectContext returns
hasContext = false, an empty file snapshot, and empty conversation,
summary and history strings. -/
theorem buildProjectContext_empty_when_le_one_turn
    (messages : List MessageWithFragment) (h : messages.length ≤ 1) :
    buildProjectContext messages =
      { conversationHistory := "", currentFiles := [], projectSummary := "",
        developmentHistory := "", hasContext := false } := by
  unfold buildProjectContext
  simp [h]

/-- Witness for C6 at the empty history. -/
theorem buildProjectContext_empty_when_le_one_turn_witness :
    buildProjectContext [] =
      { conversationHistory := "", currentFiles := [], projectSummary := "",
        developmentHistory := "", hasContext := false } :=
  buildProjectContext_empty_when_le_one_turn [] (by decide)

/-- C8: when the remote execution of a terminal command throws an error that
classifies as a sandbox-connectivity failure — for example one whose
lowercased text contains "econnreset" — the tool handler returns the fixed
retry-instruction string, not the raw error; being a total function into
String, the handler never rethrows, so the agent loop continues. -/
theorem terminalHandler_returns_fixed_retry_message (e stdoutBuf stderrBuf :
    String) (h : strContains (lowerString e) "econnreset" = true) :
    isSandboxError true e = true ∧
      terminalHandler (RunOutcome.thrown true e) stdoutBuf stderrBuf =
        sandboxRetryMessage := by
  have hcls : isSandboxError true e = true := by
    simp [isSandboxError, sandboxErrorTokens, h]
  exact ⟨hcls, by simp [terminalHandler, hcls]⟩

/-- Witness for C8 on a concrete ECONNRESET error. -/
theorem terminalHandler_returns_fixed_retry_message_witness :
    isSandboxError true "Error: connect ECONNRESET 1.2.3.4" = true ∧
      terminalHandler
        (RunOutcome.thrown true "Error: connect ECONNRESET 1.2.3.4")
        "captured output" "" = sandboxRetryMessage :=
  terminalHandler_returns_fixed_retry_message
    "Error: connect ECONNRESET 1.2.3.4" "captured output" "" (by decide)

/-- Pointwise idempotence of the cleanup update. -/
theorem cleanupStep_idem (now : Int) (p : ProjectRecord) :
    cleanupStep now (cleanupStep now p) = cleanupStep now p := by
  by_cases h : expiredSandboxFilter now p = true
  · have h2 : expiredSandboxFilter now
        { p with activeSandboxId := none, sandboxExpiresAt := none } = false := by
      simp [expiredSandboxFilter]
    simp [cleanupStep, h, h2]
  · simp [cleanupStep, h]

/-- C9: the cleanup pass clears both tracking fields of every project whose
expiry is past and whose identifier is non-null, leaves every other project
untouched, and running it a second time on the result changes nothing. -/
theorem cleanupExpiredSandboxes_idempotent_and_targeted (now : Int)
    (projects : List ProjectRecord) (p q : ProjectRecord)
    (hp : expiredSandboxFilter now p = true)
    (hq : expiredSandboxFilter now q = false) :
    cleanupExpiredSandboxes now (cleanupExpiredSandboxes now projects) =
        cleanupExpiredSandboxes now projects ∧
      cleanupStep now p =
        { p with activeSandboxId := none, sandboxExpiresAt := none } ∧
      cleanupStep now q = q := by
  refine ⟨?_, by simp [cleanupStep, hp], by simp [cleanupStep, hq]⟩
  unfold cleanupExpiredSandboxes
  rw [List.map_map]
  have hfun : cleanupStep now ∘ cleanupStep now = cleanupStep now :=
    funext (cleanupStep_idem now)
  rw [hfun]

/-- Witness for C9 on a two-project table: one expired-and-tracked project,
one with a null identifier. -/
theorem cleanupExpiredSandboxes_idempotent_and_targeted_witness :
    cleanupExpiredSandboxes 100
        (cleanupExpiredSandboxes 100
          [{ id := "1", activeSandboxId := some "sb", sandboxExpiresAt := some 50 },
           { id := "2", activeSandboxId := none, sandboxExpiresAt := some 50 }]) =
      cleanupExpiredSandboxes 100
        [{ id := "1", activeSandboxId := some "sb", sandboxExpiresAt := some 50 },
         { id := "2", activeSandboxId := none, sandboxExpiresAt := some 50 }] ∧
      cleanupStep 100
          { id := "1", activeSandboxId := some "sb", sandboxExpiresAt := some 50 } =
        { id := "1", activeSandboxId := none, sandboxExpiresAt := none } ∧
      cleanupStep 100
          { id := "2", activeSandboxId := none, sandboxExpiresAt := some 50 } =
        { id := "2", activeSandboxId := none, sandboxExpiresAt := some 50 } :=
  cleanupExpiredSandboxes_idempotent_and_targeted 100
    [{ id := "1", activeSandboxId := some "sb", sandboxExpiresAt := some 50 },
     { id := "2", activeSandboxId := none, sandboxExpiresAt := some 50 }]
    { id := "1", activeSandboxId := some "sb", sandboxExpiresAt := some 50 }
    { id := "2", activeSandboxId := none, sandboxExpiresAt := some 50 }
    (by decide) (by decide)

/-- If the first ASSISTANT/RESULT turn of a list carries a fragment, it is
also the first turn kept by the fragment-carrying filter. -/
theorem head_filter_result_with_fragment (l : List MessageWithFragment)
    (m : MessageWithFragment) (f : Fragment)
    (hm : (l.filter isAssistantResult).head? = some m)
    (hf : m.fragment = some f) :
    (l.filter isResultWithFragment).head? = some m := by
  induction l with
  | nil => simp at hm
  | cons a l ih =>
    by_cases ha : isAssistantResult a = true
    · rw [List.filter_cons_of_pos ha] at hm
      simp only [List.head?_cons, Option.some.injEq] at hm
      subst hm
      have haf : isResultWithFragment a = true := by
        simp only [isAssistantResult, Bool.and_eq_true] at ha
        simp [isResultWithFragment, hf, ha.1, ha.2]
      rw [List.filter_cons_of_pos haf]
      rfl
    · have haf : ¬ isResultWithFragment a = true := by
        simp only [isAssistantResult, Bool.and_eq_true, beq_iff_eq] at ha
        simp only [isResultWithFragment, Bool.and_eq_true, beq_iff_eq]
        tauto
      rw [List.filter_cons_of_neg ha] at hm
      rw [List.filter_cons_of_neg haf]
      exact ih hm

/-- When the chronologically last ASSISTANT/RESULT turn carries a fragment,
getLatestProjectFiles returns exactly the file map of that fragment. -/
theorem getLatestProjectFiles_eq_last_artifact
    (messages : List MessageWithFragment) (m : MessageWithFragment)
    (f : Fragment)
    (hm : (messages.filter isAssistantResult).getLast? = some m)
    (hf : m.fragment = some f) :
    getLatestProjectFiles messages = f.files := by
  have h1 : (messages.reverse.filter isAssistantResult).head? = some m := by
    rw [List.filter_reverse, ← List.getLast?_eq_head?_reverse]
    exact hm
  have h2 := head_filter_result_with_fragment messages.reverse m f h1 hf
  have h3 : (messages.filter isResultWithFragment).getLast? = some m := by
    rw [List.getLast?_eq_head?_reverse, ← List.filter_reverse]
    exact h2
  unfold getLatestProjectFiles
  rw [h3]
  show (Option.map Fragment.files m.fragment).getD [] = f.files
  rw [hf]
  rfl

/-- C3: for a fetched turn list of at least two turns whose chronologically
last ASSISTANT turn of type RESULT carries an artifact, the context file
snapshot equals exactly the file map of that single artifact — never a
union of the file maps of several artifacts. -/
theorem currentFiles_eq_last_assistant_result_artifact
    (messages : List MessageWithFragment) (m : MessageWithFragment)
    (f : Fragment) (hlen : 2 ≤ messages.length)
    (hm : (messages.filter isAssistantResult).getLast? = some m)
    (hf : m.fragment = some f) :
    (buildProjectContext messages).currentFiles = f.files ∧ m ∈ messages := by
  constructor
  · have hgt : ¬ messages.length ≤ 1 := by omega
    unfold buildProjectContext
    rw [if_neg hgt]
    exact getLatestProjectFiles_eq_last_artifact messages m f hm hf
  · have hmem : m ∈ messages.filter isAssistantResult :=
      List.mem_of_mem_getLast? hm
    exact List.mem_of_mem_filter hmem

/-- A USER turn for the concrete C3 and C10 scenarios. -/
def sampleUserTurn : MessageWithFragment :=
  { id := "u", content := "build a page", role := Role.USER,
    type := MsgType.RESULT, createdAt := 0, fragment := none }

/-- A first ASSISTANT/RESULT turn carrying an artifact. -/
def sampleResultTurn1 : MessageWithFragment :=
  { id := "a1", content := "done", role := Role.ASSISTANT,
    type := MsgType.RESULT, createdAt := 1,
    fragment := some ⟨"f1", "u1", "Fragment", [("a.txt", "1")], 1⟩ }

/-- A later ASSISTANT/RESULT turn carrying a different artifact. -/
def sampleResultTurn2 : MessageWithFragment :=
  { id := "a2", content := "done again", role := Role.ASSISTANT,
    type := MsgType.RESULT, createdAt := 2,
    fragment := some ⟨"f2", "u2", "Fragment", [("b.txt", "2")], 2⟩ }

/-- Witness for C3: with two artifacts in the history the snapshot is the
file map of the later artifact alone, not the union of the two. -/
theorem currentFiles_eq_last_assistant_result_artifact_witness :
    (buildProjectContext
        [sampleUserTurn, sampleResultTurn1, sampleResultTurn2]).currentFiles =
      [("b.txt", "2")] ∧
    sampleResultTurn2 ∈ [sampleUserTurn, sampleResultTurn1, sampleResultTurn2] :=
  currentFiles_eq_last_assistant_result_artifact
    [sampleUserTurn, sampleResultTurn1, sampleResultTurn2] sampleResultTurn2
    ⟨"f2", "u2", "Fragment", [("b.txt", "2")], 2⟩
    (by decide) (by decide) (by decide)

/-- C10: with at least two turns and no ASSISTANT/RESULT turn carrying an
artifact, the context reports hasContext = true together with an empty file
snapshot, and the router seeding step then seeds the run accumulator with
that empty snapshot — hasContext does not imply a non-empty snapshot. -/
theorem hasContext_true_with_empty_snapshot
    (messages : List MessageWithFragment) (hlen : 2 ≤ messages.length)
    (hnone : ∀ t ∈ messages, isAssistantResult t = true → t.fragment = none) :
    (buildProjectContext messages).hasContext = true ∧
      (buildProjectContext messages).currentFiles = [] ∧
      routerSeed (buildProjectContext messages).hasContext
        (buildProjectContext messages).currentFiles none = some [] := by
  have hfilter : messages.filter isResultWithFragment = [] := by
    rw [List.filter_eq_nil_iff]
    intro t ht
    by_cases hAR : isAssistantResult t = true
    · have hfrag := hnone t ht hAR
      simp [isResultWithFragment, hfrag]
    · simp only [isAssistantResult, Bool.and_eq_true, beq_iff_eq] at hAR
      simp only [isResultWithFragment, Bool.and_eq_true, beq_iff_eq]
      tauto
  have hempty : getLatestProjectFiles messages = [] := by
    unfold getLatestProjectFiles
    rw [hfilter]
    rfl
  have hgt : ¬ messages.length ≤ 1 := by omega
  unfold buildProjectContext
  rw [if_neg hgt]
  exact ⟨rfl, hempty, by simp [routerSeed, hempty]⟩

/-- A second USER turn for the C10 scenario. -/
def sampleUserTurn2 : MessageWithFragment :=
  { id := "u2", content := "add auth", role := Role.USER,
    type := MsgType.RESULT, createdAt := 1, fragment := none }

/-- Witness for C10 on a history of two USER turns and no artifact. -/
theorem hasContext_true_with_empty_snapshot_witness :
    (buildProjectContext [sampleUserTurn, sampleUserTurn2]).hasContext = true ∧
      (buildProjectContext [sampleUserTurn, sampleUserTurn2]).currentFiles = [] ∧
      routerSeed (buildProjectContext [sampleUserTurn, sampleUserTurn2]).hasContext
        (buildProjectContext [sampleUserTurn, sampleUserTurn2]).currentFiles
        none = some [] :=
  hasContext_true_with_empty_snapshot [sampleUserTurn, sampleUserTurn2]
    (by decide) (by decide)

/-- C7: during sandbox acquisition with a prior snapshot to resync, a file
write that throws while seeding the freshly created sandbox makes the whole
call fail with that very error (propagated, not swallowed), while a failing
connect to the stored sandbox never propagates: whatever the stored state,
a connect failure routes the call into the creation branch. -/
theorem sync_error_propagates_connect_error_swallowed
    (project : Option ProjectSandboxFields) (fs : FileMap) (env : SandboxEnv)
    (now : Int) (i : Nat) (hfail : env.syncFailAt = some i)
    (hi : i < fs.length) (hconn : env.connectOk = false) :
    getOrCreateProjectSandbox project (some fs) env now =
        Except.error env.syncErrMsg ∧
      ∀ previousFiles,
        getOrCreateProjectSandbox project previousFiles env now =
          createSandboxBranch previousFiles env now := by
  have hbranch : ∀ previousFiles,
      getOrCreateProjectSandbox project previousFiles env now =
        createSandboxBranch previousFiles env now := by
    intro previousFiles
    cases project with
    | none => rfl
    | some p =>
      by_cases hact :
          isActiveSandbox p.activeSandboxId p.sandboxExpiresAt now = true
      · simp [getOrCreateProjectSandbox, hact, hconn]
      · simp [getOrCreateProjectSandbox, hact]
  refine ⟨?_, hbranch⟩
  rw [hbranch]
  have hlen : 0 < fs.length := Nat.lt_of_le_of_lt (Nat.zero_le i) hi
  simp [createSandboxBranch, syncFilesToSandbox, hfail, hi, hlen]

/-- Witness for C7: connect is down, the first resync write throws, and the
acquisition call fails with exactly that error. -/
theorem sync_error_propagates_connect_error_swallowed_witness :
    getOrCreateProjectSandbox none (some [("a.txt", "1")])
        { connectOk := false, newSandboxId := "sb-new",
          syncFailAt := some 0, syncErrMsg := "write failed" } 0 =
      Except.error "write failed" :=
  (sync_error_propagates_connect_error_swallowed none [("a.txt", "1")]
    { connectOk := false, newSandboxId := "sb-new",
      syncFailAt := some 0, syncErrMsg := "write failed" } 0 0
    rfl (by decide) rfl).1

/-- C2 counterexample: the accumulator is seeded with one file, the tool is
asked to write two files, and the second remote write throws.  The tool
does return a string error result, but because the working map is the very
accumulator object, the first written pair is already merged: the
accumulator after the call differs from what it was before, refuting the
claim that a throw leaves the accumulator exactly as it was. -/
theorem createOrUpdateFiles_preserves_accumulator_counterexample :
    (createOrUpdateFiles (some [("a", "1")]) [("b", "2"), ("c", "3")]
        (some 1) true "disk full").2 =
      FilesStepRes.str "Error: disk full" ∧
    (createOrUpdateFiles (some [("a", "1")]) [("b", "2"), ("c", "3")]
        (some 1) true "disk full").1 = some [("a", "1"), ("b", "2")] ∧
    some [("a", "1"), ("b", "2")] ≠ (some [("a", "1")] : Option FileMap) := by
  refine ⟨by decide, by decide, by decide⟩

/-- C2 as amended: a thrown write yields a string error result and skips the
final commit, but the pairs written before the throw remain merged into a
previously seeded accumulator, because the working map aliases it; the
accumulator stays untouched only when it was unseeded, and the full merge
commits exactly when the whole write phase did not throw. -/
theorem createOrUpdateFiles_aliased_merge_on_throw (acc : FileMap)
    (files : List (String × String)) (i : Nat) (errIsObject : Bool)
    (errText : String) (hi : i < files.length) :
    (∃ s, (createOrUpdateFiles (some acc) files (some i) errIsObject
        errText).2 = FilesStepRes.str s) ∧
      (createOrUpdateFiles (some acc) files (some i) errIsObject errText).1 =
        some (recordSetAll acc (files.take i)) ∧
      (createOrUpdateFiles none files (some i) errIsObject errText).1 =
        none ∧
      (createOrUpdateFiles (some acc) files none errIsObject errText).1 =
        some (recordSetAll acc files) ∧
      (createOrUpdateFiles (some acc) files none errIsObject errText).2 =
        FilesStepRes.object (recordSetAll acc files) := by
  unfold createOrUpdateFiles
  simp [hi]

/-- Witness for C2 as amended: after the throw at index 1, the accumulator
holds the old pair plus the single pair written before the throw. -/
theorem createOrUpdateFiles_aliased_merge_on_throw_witness :
    (createOrUpdateFiles (some [("a", "1")]) [("b", "2"), ("c", "3")]
        (some 1) true "boom").1 =
      some (recordSetAll [("a", "1")] ([("b", "2"), ("c", "3")].take 1)) :=
  (createOrUpdateFiles_aliased_merge_on_throw [("a", "1")]
    [("b", "2"), ("c", "3")] 1 true "boom" (by decide)).2.1

end MRAgent
